import Mathlib

/-!
Verification of the bytes upload/download handlers of the bee repository
(src/pkg/api/bytes.go) against its natural-language specification.

The handler code is embedded shallowly: collaborator outcomes (stamper
putter creation, pipeline run, access-control wrapping, Done) are inputs,
and the handler's observable behaviour is a trace of events plus a
response value.  Components of the repository that are not part of the
source excerpt (the session tracker, the putter commit/abort state
machine, chunk validity, the store interface) are modelled from the
specification and are marked as such in their doc comments.
-/

namespace Bee

/-! ## Session tracker (tag store) -/

/-- Session-lookup errors. -/
inductive SessionErr where
  | notFound
  deriving DecidableEq, Repr

/-- The session (tag) store: the ids of existing sessions and the next
fresh id to hand out. -/
structure Sessions where
  existing : List Nat
  nextId : Nat
  deriving DecidableEq, Repr

/-- Well-formedness of the session store: every existing id is below the
next fresh id, and the next fresh id is nonzero (id 0 is the "allocate a
new session" marker, never a real session id). -/
def Sessions.WF (s : Sessions) : Prop :=
  (∀ x ∈ s.existing, x < s.nextId) ∧ 0 < s.nextId

instance (s : Sessions) : Decidable s.WF := by
  unfold Sessions.WF; infer_instance

/-- Modelled from the spec: `getOrCreateSessionID` is not part of the
source excerpt.  Per the spec, "id=0 allocates a new session; nonzero id
that does not exist fails `NotFound`".  The function returns the resolved
tag id (or the error) together with the session store after the call. -/
def getOrCreateSessionID (s : Sessions) (id : Nat) :
    Except SessionErr Nat × Sessions :=
  if id = 0 then
    (Except.ok s.nextId,
      { existing := s.nextId :: s.existing, nextId := s.nextId + 1 })
  else if id ∈ s.existing then
    (Except.ok id, s)
  else
    (Except.error SessionErr.notFound, s)

/-! ## Putter commit/abort state machine -/

/-- Modelled from the spec: the putter's lifecycle state.  The spec's
design notes prescribe the state machine {staging, committed, aborted}
with transitions staging→committed (`Done`) and staging→aborted
(`Cleanup`); both terminal states absorb further calls. -/
inductive PutterState where
  | staging
  | committed
  | aborted
  deriving DecidableEq, Repr

/-- Modelled from the spec: `Done` commits a staging putter; in a
terminal state it leaves the state unchanged. -/
def PutterState.done : PutterState → PutterState
  | PutterState.staging => PutterState.committed
  | s => s

/-- Modelled from the spec: `Cleanup` aborts a staging putter and is a
no-op without error in either terminal state.  The second component is
the error returned by the call (`none` = no error). -/
def PutterState.cleanup : PutterState → PutterState × Option Unit
  | PutterState.staging => (PutterState.aborted, none)
  | s => (s, none)

end Bee

namespace Bee

/-! ## The bytes upload handler (src/pkg/api/bytes.go, bytesUploadHandler)

Addresses are modelled as natural numbers; `swarm.ZeroAddress` is 0.
The outcome of each collaborator call (putter creation, pipeline run,
access-control wrapping, `Done`) is an input in `UploadEnv`; the handler
itself is the exact control flow of the Go function.  Observable
behaviour is a trace of events (in execution order) plus a response. -/

/-- Errors of `newStamperPutter`, as distinguished by the handler's
`errors.Is` chain. -/
inductive PutterErr where
  | batchUnusable
  | batchNotFound
  | invalidBatch
  | devNode
  | other
  deriving DecidableEq, Repr

/-- Errors of the pipeline run, as distinguished by the handler:
`postage.ErrBucketFull` versus everything else. -/
inductive PipelineErr where
  | bucketFull
  | other
  deriving DecidableEq, Repr

/-- Errors of `actEncryptionHandler`, as distinguished by the handler's
`errors.Is` chain. -/
inductive ActErr where
  | notFound
  | invalidPublicKey
  | unexpectedType
  | other
  deriving DecidableEq, Repr

/-- The parsed request headers of an upload.  `valid` is the outcome of
`mapStructure` header validation (parsing itself is out of scope). -/
structure UploadHeaders where
  valid : Bool
  swarmTag : Nat
  pin : Bool
  deferred : Option Bool
  encrypt : Bool
  act : Bool
  historyAddress : Nat
  deriving DecidableEq, Repr

/-- The collaborator behaviour for one upload request.
`actHandler ref histAddr` returns the encrypted reference and the new
history address; `done ref` is `putter.Done(reference)`. -/
structure UploadEnv where
  sessions : Sessions
  deferredDefault : Bool
  newPutter : Except PutterErr Unit
  pipeline : Except PipelineErr Nat
  actHandler : Nat → Nat → Except ActErr (Nat × Nat)
  done : Nat → Except Unit Unit

/-- Observable events of one upload, in execution order. -/
inductive Event where
  | sessionOp (id : Nat)
  | pipelineRun
  | actOp
  | doneOp (ref : Nat)
  | cleanup
  | writeStatus (code : Nat)
  deriving DecidableEq, Repr

/-- The response of the upload handler.  `created` carries the reference
of the JSON body, the Swarm-Tag header value (if set) and the
Swarm-Act-History-Address header value (if set). -/
inductive UploadResponse where
  | invalidHeaders
  | tagNotFound
  | batchUnusable
  | batchNotFound
  | invalidBatch
  | devNodeErr
  | badRequest
  | bucketFullResp
  | splitFailed
  | actNotFoundResp
  | actInvalidKey
  | actHistoryFailed
  | actFailed
  | doneFailed
  | created (reference : Nat) (tag : Option Nat) (history : Option Nat)
  deriving DecidableEq, Repr

/-- Status code written for each `newStamperPutter` error
(422 / 404 / 400 / 400 / 400 in the handler's switch). -/
def putterErrStatus : PutterErr → Nat
  | PutterErr.batchUnusable => 422
  | PutterErr.batchNotFound => 404
  | PutterErr.invalidBatch => 400
  | PutterErr.devNode => 400
  | PutterErr.other => 400

/-- Response body for each `newStamperPutter` error. -/
def putterErrResponse : PutterErr → UploadResponse
  | PutterErr.batchUnusable => UploadResponse.batchUnusable
  | PutterErr.batchNotFound => UploadResponse.batchNotFound
  | PutterErr.invalidBatch => UploadResponse.invalidBatch
  | PutterErr.devNode => UploadResponse.devNodeErr
  | PutterErr.other => UploadResponse.badRequest

/-- Status code written for each access-control error
(404 / 400 / 400 / 500 in the handler's switch). -/
def actErrStatus : ActErr → Nat
  | ActErr.notFound => 404
  | ActErr.invalidPublicKey => 400
  | ActErr.unexpectedType => 400
  | ActErr.other => 500

/-- Response body for each access-control error. -/
def actErrResponse : ActErr → UploadResponse
  | ActErr.notFound => UploadResponse.actNotFoundResp
  | ActErr.invalidPublicKey => UploadResponse.actInvalidKey
  | ActErr.unexpectedType => UploadResponse.actHistoryFailed
  | ActErr.other => UploadResponse.actFailed

/-- Modelled from the spec: `cleanupOnErrWriter.WriteHeader` is not in
the source excerpt.  Per the spec's CleanupCoordinator contract it
invokes `Cleanup` whenever an error status is about to be written, before
forwarding the write to the underlying response writer. -/
def cleanupWrite (code : Nat) : List Event :=
  if 400 ≤ code then [Event.cleanup, Event.writeStatus code]
  else [Event.writeStatus code]

/-- Modelled from the spec: `defaultUploadMethod` is not in the source
excerpt.  An explicit Swarm-Deferred-Upload header wins; the node-level
default (left open by the spec) is the second argument. -/
def defaultUploadMethod (deferred : Option Bool) (dflt : Bool) : Bool :=
  deferred.getD dflt

/-- The session/tag step of the upload handler: `getOrCreateSessionID`
is consulted exactly when the upload is deferred or pinned; otherwise
the tag stays 0 and no session is consulted. -/
def tagStepOf (env : UploadEnv) (h : UploadHeaders) :
    List Event × Except SessionErr Nat :=
  if defaultUploadMethod h.deferred env.deferredDefault || h.pin then
    ([Event.sessionOp h.swarmTag],
      (getOrCreateSessionID env.sessions h.swarmTag).1)
  else
    ([], Except.ok 0)

/-- The upload handler, embedded from `bytesUploadHandler` in
src/pkg/api/bytes.go.  Error writes that go through the
cleanup-on-error writer (`ow`: pipeline failure, `Done` failure) use
`cleanupWrite`; error writes that go through the plain writer `w`
(header validation, tag lookup, putter creation, access control) do
not. -/
def bytesUploadHandler (env : UploadEnv) (h : UploadHeaders) :
    List Event × UploadResponse :=
  if h.valid = false then
    ([Event.writeStatus 400], UploadResponse.invalidHeaders)
  else
    match tagStepOf env h with
    | (ev, Except.error _) =>
        (ev ++ [Event.writeStatus 404], UploadResponse.tagNotFound)
    | (ev, Except.ok tag) =>
        match env.newPutter with
        | Except.error e =>
            (ev ++ [Event.writeStatus (putterErrStatus e)],
              putterErrResponse e)
        | Except.ok _ =>
            match env.pipeline with
            | Except.error PipelineErr.bucketFull =>
                (ev ++ [Event.pipelineRun] ++ cleanupWrite 402,
                  UploadResponse.bucketFullResp)
            | Except.error PipelineErr.other =>
                (ev ++ [Event.pipelineRun] ++ cleanupWrite 500,
                  UploadResponse.splitFailed)
            | Except.ok reference =>
                -- `finish` is the code after the access-control if-block:
                -- putter.Done(reference), then the Swarm-Tag and history
                -- headers and the Created response.
                let finish : List Event → Nat → Option Nat →
                    List Event × UploadResponse :=
                  fun aev encryptedReference historyHeader =>
                    match env.done reference with
                    | Except.error _ =>
                        (ev ++ [Event.pipelineRun] ++ aev ++
                            [Event.doneOp reference] ++ cleanupWrite 500,
                          UploadResponse.doneFailed)
                    | Except.ok _ =>
                        (ev ++ [Event.pipelineRun] ++ aev ++
                            [Event.doneOp reference, Event.writeStatus 201],
                          UploadResponse.created encryptedReference
                            (if tag ≠ 0 then some tag else none)
                            historyHeader)
                if h.act then
                  match env.actHandler reference h.historyAddress with
                  | Except.error e =>
                      (ev ++ [Event.pipelineRun, Event.actOp,
                          Event.writeStatus (actErrStatus e)],
                        actErrResponse e)
                  | Except.ok (encryptedReference, historyReference) =>
                      finish [Event.actOp] encryptedReference
                        (some historyReference)
                else
                  finish [] reference none

end Bee

namespace Bee

/-! ## The bytes HEAD handler (src/pkg/api/bytes.go, bytesHeadHandler) -/

/-- `swarm.SpanSize`: the span is the first 8 bytes of a chunk's data. -/
def SpanSize : Nat := 8

/-- A stored unit: its address and its raw data (span + payload for
content-addressed chunks); bytes are naturals below 256. -/
structure Chunk where
  address : Nat
  data : List Nat
  deriving DecidableEq, Repr

/-- Go's `binary.LittleEndian.Uint64` applied to the first 8 bytes. -/
def littleEndianUint64 (bs : List Nat) : Nat :=
  ((bs.take 8).reverse).foldl (fun acc b => acc * 256 + b % 256) 0

/-- Go's `int64(x)` cast of a uint64 value: two's-complement
reinterpretation. -/
def toInt64 (n : Nat) : Int :=
  if n % 2 ^ 64 < 2 ^ 63 then ((n % 2 ^ 64 : Nat) : Int)
  else ((n % 2 ^ 64 : Nat) : Int) - 2 ^ 64

/-- Modelled from the spec: `cac.Valid` is not in the source excerpt.
Per the spec, a valid content-addressed unit has a span prefixed to its
payload (so its data has at least `SpanSize` bytes) and its address
equals the hash of the length-prefixed payload; the hash function itself
is outside the spec's scope and is a parameter. -/
def cacValid (hash : List Nat → Nat) (ch : Chunk) : Bool :=
  decide (SpanSize ≤ ch.data.length) && decide (ch.address = hash ch.data)

/-- Modelled from the spec: the Store collaborator's `Get`.  It returns
the unit, with `NotFound` on a miss; per the spec's error taxonomy a
store fetch may instead fail with a transport error, which can happen
even when the address is present. -/
inductive GetResult where
  | found (ch : Chunk)
  | errNotFound
  | errOther
  deriving DecidableEq, Repr

/-- Modelled from the spec: the Store's `Get`, driven by its contents
(a partial map from addresses to chunks) and by which fetches suffer a
transport failure. -/
def storeGet (contents : Nat → Option Chunk) (transportFail : Nat → Bool)
    (addr : Nat) : GetResult :=
  if transportFail addr then GetResult.errOther
  else
    match contents addr with
    | some ch => GetResult.found ch
    | none => GetResult.errNotFound

/-- The HEAD handler's observable response: the HTTP status and the
Content-Length header value (when set). -/
structure HeadResponse where
  status : Nat
  contentLength : Option Int
  deriving DecidableEq, Repr

/-- The length-only (HEAD) handler, embedded from `bytesHeadHandler` in
src/pkg/api/bytes.go: any `Get` failure yields 404; on success the
reported length is the span (cast to int64) for a valid
content-addressed chunk, and the data's byte length otherwise.
`validPath` is the outcome of `mapStructure` path validation. -/
def bytesHeadHandler (hash : List Nat → Nat) (contents : Nat → Option Chunk)
    (transportFail : Nat → Bool) (validPath : Bool) (addr : Nat) :
    HeadResponse :=
  if validPath = false then
    { status := 400, contentLength := none }
  else
    match storeGet contents transportFail addr with
    | GetResult.errNotFound => { status := 404, contentLength := none }
    | GetResult.errOther => { status := 404, contentLength := none }
    | GetResult.found ch =>
        let span : Int :=
          if cacValid hash ch then
            toInt64 (littleEndianUint64 (ch.data.take SpanSize))
          else
            (ch.data.length : Int)
        { status := 200, contentLength := some span }

/-- Modelled from the spec: the download path's root resolution
(`Resolve(ctx, address)`, used by the GET handler whose body is not in
the source excerpt) fails `NotFound` if the address does not resolve via
the Store. -/
def downloadResolve (contents : Nat → Option Chunk)
    (transportFail : Nat → Bool) (addr : Nat) : Except Unit Chunk :=
  match storeGet contents transportFail addr with
  | GetResult.found ch => Except.ok ch
  | GetResult.errNotFound => Except.error ()
  | GetResult.errOther => Except.error ()

end Bee

namespace Bee

/-! ## Concrete fixtures used by witnesses and counterexamples -/

def c9Env : UploadEnv :=
  { sessions := { existing := [], nextId := 1 }, deferredDefault := false,
    newPutter := Except.ok (), pipeline := Except.ok 3,
    actHandler := fun r hs => Except.ok (r, hs),
    done := fun _ => Except.ok () }

def c9Headers : UploadHeaders :=
  { valid := false, swarmTag := 0, pin := false, deferred := none,
    encrypt := false, act := false, historyAddress := 0 }

def c10Env : UploadEnv :=
  { sessions := { existing := [], nextId := 1 }, deferredDefault := false,
    newPutter := Except.ok (), pipeline := Except.ok 3,
    actHandler := fun r hs => Except.ok (r, hs),
    done := fun _ => Except.ok () }

def c10Headers : UploadHeaders :=
  { valid := true, swarmTag := 0, pin := false, deferred := some false,
    encrypt := false, act := false, historyAddress := 0 }

def c3Env : UploadEnv :=
  { sessions := { existing := [], nextId := 1 }, deferredDefault := false,
    newPutter := Except.ok (), pipeline := Except.ok 3,
    actHandler := fun _ _ => Except.error ActErr.notFound,
    done := fun _ => Except.ok () }

def c3Headers : UploadHeaders :=
  { valid := true, swarmTag := 0, pin := false, deferred := some false,
    encrypt := false, act := true, historyAddress := 5 }

def c5Env : UploadEnv :=
  { sessions := { existing := [], nextId := 1 }, deferredDefault := false,
    newPutter := Except.ok (),
    pipeline := Except.error PipelineErr.bucketFull,
    actHandler := fun r hs => Except.ok (r, hs),
    done := fun _ => Except.ok () }

def c5Headers : UploadHeaders :=
  { valid := true, swarmTag := 0, pin := false, deferred := some false,
    encrypt := false, act := false, historyAddress := 0 }

def c1Env : UploadEnv :=
  { sessions := { existing := [], nextId := 1 }, deferredDefault := false,
    newPutter := Except.ok (), pipeline := Except.ok 3,
    actHandler := fun _ _ => Except.ok (7, 9),
    done := fun _ => Except.ok () }

def c1Headers : UploadHeaders :=
  { valid := true, swarmTag := 0, pin := false, deferred := some false,
    encrypt := false, act := true, historyAddress := 0 }

/-- A hash function for which every well-sized chunk with address 0 is a
valid content-addressed chunk. -/
def zeroHash : List Nat → Nat := fun _ => 0

/-- A hash function under which a chunk with address 0 is not valid. -/
def oneHash : List Nat → Nat := fun _ => 1

def noFail : Nat → Bool := fun _ => false

def allFail : Nat → Bool := fun _ => true

/-- A chunk whose span bytes decode (little-endian) to 2^64 - 1. -/
def c4Chunk : Chunk := { address := 0, data := List.replicate 8 255 }

def c4Contents : Nat → Option Chunk :=
  fun a => if a = 0 then some c4Chunk else none

/-- A 50-byte raw (non-content-addressed) object. -/
def rawChunk50 : Chunk := { address := 0, data := List.replicate 50 7 }

def contents50 : Nat → Option Chunk :=
  fun a => if a = 0 then some rawChunk50 else none

/-- A valid content-addressed root chunk whose span is 1 MiB. -/
def chunkMiB : Chunk :=
  { address := 0, data := [0, 0, 16, 0, 0, 0, 0, 0] ++ List.replicate 16 1 }

def contentsMiB : Nat → Option Chunk :=
  fun a => if a = 0 then some chunkMiB else none

def c7Chunk : Chunk := { address := 0, data := [1, 2, 3] }

def c7Contents : Nat → Option Chunk := fun _ => some c7Chunk

end Bee

namespace Bee

/-! ## Helper lemmas -/

theorem actErrResponse_ne_created (e : ActErr) (r : Nat) (tg hist : Option Nat) :
    actErrResponse e ≠ UploadResponse.created r tg hist := by
  cases e <;> simp [actErrResponse]

theorem actErrResponse_ne_bucketFull (e : ActErr) :
    actErrResponse e ≠ UploadResponse.bucketFullResp := by
  cases e <;> simp [actErrResponse]

theorem actErrResponse_ne_splitFailed (e : ActErr) :
    actErrResponse e ≠ UploadResponse.splitFailed := by
  cases e <;> simp [actErrResponse]

theorem actErrResponse_ne_doneFailed (e : ActErr) :
    actErrResponse e ≠ UploadResponse.doneFailed := by
  cases e <;> simp [actErrResponse]

theorem putterErrResponse_ne_created (e : PutterErr) (r : Nat)
    (tg hist : Option Nat) :
    putterErrResponse e ≠ UploadResponse.created r tg hist := by
  cases e <;> simp [putterErrResponse]

theorem putterErrResponse_ne_bucketFull (e : PutterErr) :
    putterErrResponse e ≠ UploadResponse.bucketFullResp := by
  cases e <;> simp [putterErrResponse]

theorem putterErrResponse_ne_splitFailed (e : PutterErr) :
    putterErrResponse e ≠ UploadResponse.splitFailed := by
  cases e <;> simp [putterErrResponse]

theorem putterErrResponse_ne_doneFailed (e : PutterErr) :
    putterErrResponse e ≠ UploadResponse.doneFailed := by
  cases e <;> simp [putterErrResponse]

/-! ## C6 / C8 theorems -/

/-- C6: a session id of 0 allocates a new session (a fresh id is handed
out and recorded), and a nonzero id that does not correspond to an
existing session fails with NotFound while leaving the store unchanged
(no new session is created). -/
theorem getOrCreateSessionID_spec (s : Sessions) (id : Nat) (hwf : s.WF) :
    (id = 0 →
      (getOrCreateSessionID s id).1 = Except.ok s.nextId ∧
      s.nextId ∉ s.existing ∧
      (getOrCreateSessionID s id).2.existing = s.nextId :: s.existing) ∧
    (id ≠ 0 → id ∉ s.existing →
      (getOrCreateSessionID s id).1 = Except.error SessionErr.notFound ∧
      (getOrCreateSessionID s id).2 = s) := by
  constructor
  · intro h0
    subst h0
    refine ⟨rfl, ?_, rfl⟩
    intro hmem
    exact absurd (hwf.1 _ hmem) (lt_irrefl _)
  · intro hne hmem
    simp [getOrCreateSessionID, hne, hmem]

/-- Witness for C6 at a concrete session store. -/
theorem getOrCreateSessionID_spec_witness :
    let s : Sessions := { existing := [1, 2], nextId := 3 }
    (getOrCreateSessionID s 0).1 = Except.ok 3 ∧
    (getOrCreateSessionID s 7).1 = Except.error SessionErr.notFound := by
  intro s
  have h := getOrCreateSessionID_spec s 0 (by decide)
  have h7 := getOrCreateSessionID_spec s 7 (by decide)
  exact ⟨(h.1 rfl).1, (h7.2 (by decide) (by decide)).1⟩

/-- C8: Cleanup is idempotent: after a successful Done it is a no-op
without error, and calling it twice from any state produces the same
state as calling it once (with no error on the repeated call). -/
theorem putter_cleanup_idempotent (s : PutterState) :
    (PutterState.cleanup (PutterState.done PutterState.staging) =
      (PutterState.committed, none)) ∧
    ((PutterState.cleanup (PutterState.cleanup s).1).1 =
      (PutterState.cleanup s).1) ∧
    (PutterState.cleanup (PutterState.cleanup s).1).2 = none := by
  refine ⟨rfl, ?_, ?_⟩ <;> cases s <;> rfl

/-! ## C9: validation failures abort before anything happens -/

/-- C9: when header validation fails, the handler writes the validation
error and returns at once: the trace holds nothing but the 400 status
write, so no session is consulted or created, the pipeline never runs
(no unit is stored), and no cleanup is performed. -/
theorem upload_validation_aborts (env : UploadEnv) (h : UploadHeaders)
    (hv : h.valid = false) :
    bytesUploadHandler env h =
      ([Event.writeStatus 400], UploadResponse.invalidHeaders) ∧
    (∀ id, Event.sessionOp id ∉ (bytesUploadHandler env h).1) ∧
    Event.pipelineRun ∉ (bytesUploadHandler env h).1 ∧
    Event.cleanup ∉ (bytesUploadHandler env h).1 := by
  simp [bytesUploadHandler, hv]

/-- Witness for C9 at a concrete request whose headers are invalid. -/
theorem upload_validation_aborts_witness :
    bytesUploadHandler c9Env c9Headers =
      ([Event.writeStatus 400], UploadResponse.invalidHeaders) :=
  (upload_validation_aborts c9Env c9Headers rfl).1

/-! ## C10: no session for a non-deferred, non-pinned upload -/

/-- C10: when the resolved upload method is not deferred and the pin
option is unset, no session is ever consulted or created, and a
successful response carries no Swarm-Tag header (the tag stays 0 and the
header is only set for a nonzero tag). -/
theorem upload_no_session_when_direct (env : UploadEnv) (h : UploadHeaders)
    (hdef : defaultUploadMethod h.deferred env.deferredDefault = false)
    (hpin : h.pin = false) :
    (∀ id, Event.sessionOp id ∉ (bytesUploadHandler env h).1) ∧
    (∀ r tg hist, (bytesUploadHandler env h).2 =
      UploadResponse.created r tg hist → tg = none) := by
  unfold bytesUploadHandler tagStepOf
  rw [hdef, hpin]
  repeat' split
  all_goals try simp_all [cleanupWrite, putterErrResponse_ne_created,
    actErrResponse_ne_created]

/-- Witness for C10 at a concrete direct (non-deferred, non-pinned)
upload that succeeds. -/
theorem upload_no_session_when_direct_witness :
    Event.sessionOp 0 ∉ (bytesUploadHandler c10Env c10Headers).1 ∧
    (∀ r tg hist, (bytesUploadHandler c10Env c10Headers).2 =
      UploadResponse.created r tg hist → tg = none) ∧
    (bytesUploadHandler c10Env c10Headers).2 =
      UploadResponse.created 3 none none := by
  have h := upload_no_session_when_direct c10Env c10Headers rfl rfl
  exact ⟨h.1 0, h.2, by decide⟩

/-! ## C3: access-control failure leaves stored units, skips Done -/

/-- C3: when access control is requested and the wrapping step fails
after the plain root reference exists, the handler surfaces the
access-control error (an error status is written) without calling Done
on the putter and without invoking Cleanup — the handler performs no
operation that would retract the already-stored units. -/
theorem act_failure_propagates (env : UploadEnv) (h : UploadHeaders)
    (hv : h.valid = true) (hact : h.act = true) (tag : Nat)
    (htag : (tagStepOf env h).2 = Except.ok tag)
    (hput : env.newPutter = Except.ok ())
    (reference : Nat) (hp : env.pipeline = Except.ok reference)
    (e : ActErr)
    (ha : env.actHandler reference h.historyAddress = Except.error e) :
    (bytesUploadHandler env h).2 = actErrResponse e ∧
    (∀ r, Event.doneOp r ∉ (bytesUploadHandler env h).1) ∧
    Event.cleanup ∉ (bytesUploadHandler env h).1 ∧
    Event.writeStatus (actErrStatus e) ∈ (bytesUploadHandler env h).1 ∧
    400 ≤ actErrStatus e := by
  rcases hts : tagStepOf env h with ⟨ev, tagr⟩
  rw [hts] at htag
  simp only at htag
  subst htag
  have hev : ev = [] ∨ ∃ id, ev = [Event.sessionOp id] := by
    unfold tagStepOf at hts
    split at hts
    · exact Or.inr ⟨h.swarmTag, (Prod.mk.injEq _ _ _ _ ▸ hts).1.symm⟩
    · exact Or.inl (Prod.mk.injEq _ _ _ _ ▸ hts).1.symm
  unfold bytesUploadHandler
  rw [hv, hts, hput, hp, hact]
  simp only [ha]
  refine ⟨rfl, ?_, ?_, ?_, ?_⟩
  · intro r
    rcases hev with h0 | ⟨id2, h1⟩
    · simp [h0]
    · simp [h1]
  · rcases hev with h0 | ⟨id2, h1⟩
    · simp [h0]
    · simp [h1]
  · simp
  · cases e <;> decide

/-- Witness for C3 at a concrete upload whose access-control step fails
with NotFound after the pipeline produced reference 3. -/
theorem act_failure_propagates_witness :
    (bytesUploadHandler c3Env c3Headers).2 = actErrResponse ActErr.notFound ∧
    Event.cleanup ∉ (bytesUploadHandler c3Env c3Headers).1 ∧
    Event.doneOp 3 ∉ (bytesUploadHandler c3Env c3Headers).1 := by
  have h := act_failure_propagates c3Env c3Headers rfl rfl 0 rfl rfl 3 rfl
    ActErr.notFound rfl
  exact ⟨h.1, h.2.2.1, h.2.1 3⟩

/-! ## C5: bucket-capacity exhaustion is surfaced distinctly -/

/-- C5: when the upload reaches the pipeline, its failing with the
bucket-full (capacity) error is equivalent to the handler responding
with the distinct 402 "batch is overissued" response — and in that case
Cleanup runs immediately before the status write; every other pipeline
error yields the generic 500 response instead, also after Cleanup. -/
theorem bucketFull_distinct (env : UploadEnv) (h : UploadHeaders) (tag : Nat)
    (hv : h.valid = true) (htag : (tagStepOf env h).2 = Except.ok tag)
    (hput : env.newPutter = Except.ok ()) :
    ((bytesUploadHandler env h).2 = UploadResponse.bucketFullResp ↔
      env.pipeline = Except.error PipelineErr.bucketFull) ∧
    (env.pipeline = Except.error PipelineErr.bucketFull →
      (bytesUploadHandler env h).1 = (tagStepOf env h).1 ++
        [Event.pipelineRun, Event.cleanup, Event.writeStatus 402]) ∧
    (env.pipeline = Except.error PipelineErr.other →
      (bytesUploadHandler env h).2 = UploadResponse.splitFailed ∧
      UploadResponse.splitFailed ≠ UploadResponse.bucketFullResp ∧
      (bytesUploadHandler env h).1 = (tagStepOf env h).1 ++
        [Event.pipelineRun, Event.cleanup, Event.writeStatus 500]) := by
  rcases hts : tagStepOf env h with ⟨ev, tagr⟩
  rw [hts] at htag
  simp only at htag
  subst htag
  unfold bytesUploadHandler
  rw [hv, hts, hput]
  rcases hp : env.pipeline with e | reference
  · cases e <;> simp [cleanupWrite]
  · simp only
    repeat' split
    all_goals try simp_all [cleanupWrite, actErrResponse_ne_bucketFull,
      actErrResponse_ne_splitFailed]

/-- Witness for C5 at a concrete upload whose pipeline fails with the
bucket-full capacity error. -/
theorem bucketFull_distinct_witness :
    (bytesUploadHandler c5Env c5Headers).2 = UploadResponse.bucketFullResp ∧
    (bytesUploadHandler c5Env c5Headers).1 =
      [Event.pipelineRun, Event.cleanup, Event.writeStatus 402] := by
  have h := bucketFull_distinct c5Env c5Headers 0 rfl rfl rfl
  refine ⟨h.1.mpr rfl, ?_⟩
  rw [h.2.1 rfl]
  rfl

/-! ## More helper lemmas -/

theorem putterErrResponse_ne_actErrResponse (pe : PutterErr) (e : ActErr) :
    putterErrResponse pe ≠ actErrResponse e := by
  cases pe <;> cases e <;> simp [putterErrResponse, actErrResponse]

theorem cleanup_not_in_tagStep (env : UploadEnv) (h : UploadHeaders) :
    Event.cleanup ∉ (tagStepOf env h).1 := by
  unfold tagStepOf
  split <;> simp

theorem toInt64_of_lt (n : Nat) (h : n < 2 ^ 63) : toInt64 n = (n : Int) := by
  have h64 : n < 2 ^ 64 := lt_trans h (by norm_num)
  unfold toInt64
  rw [Nat.mod_eq_of_lt h64]
  split
  · rfl
  · rename_i hn
    exact absurd h hn

/-! ## C1: the reference in the successful response -/

/-- C1 counterexample: with access control set, the response's reference
is the encrypted reference (7), not the plain root reference produced by
the pipeline (3). -/
theorem upload_reference_claim_false :
    c1Env.pipeline = Except.ok 3 ∧
    (bytesUploadHandler c1Env c1Headers).2 =
      UploadResponse.created 7 none (some 9) ∧
    (7 : Nat) ≠ 3 := by
  refine ⟨rfl, by decide, by decide⟩

/-- C1 (amended): on a successful upload the response carries the plain
root reference when access control was not requested; when access
control was requested it carries the encrypted reference returned by the
wrapping step, together with its history address. -/
theorem upload_response_reference (env : UploadEnv) (h : UploadHeaders)
    (tag : Nat) (hv : h.valid = true)
    (htag : (tagStepOf env h).2 = Except.ok tag)
    (hput : env.newPutter = Except.ok ())
    (reference : Nat) (hp : env.pipeline = Except.ok reference) :
    (h.act = false → env.done reference = Except.ok () →
      (bytesUploadHandler env h).2 = UploadResponse.created reference
        (if tag ≠ 0 then some tag else none) none) ∧
    (∀ er hr, h.act = true →
      env.actHandler reference h.historyAddress = Except.ok (er, hr) →
      env.done reference = Except.ok () →
      (bytesUploadHandler env h).2 = UploadResponse.created er
        (if tag ≠ 0 then some tag else none) (some hr)) := by
  rcases hts : tagStepOf env h with ⟨ev, tagr⟩
  rw [hts] at htag
  simp only at htag
  subst htag
  unfold bytesUploadHandler
  rw [hv, hts, hput, hp]
  constructor
  · intro hact hdone
    simp [hact, hdone]
  · intro er hr hact ha hdone
    simp [hact, ha, hdone]

/-- Witness for the amended C1: a plain upload responds with the plain
reference 3; an access-controlled upload responds with the encrypted
reference 7 and history address 9. -/
theorem upload_response_reference_witness :
    (bytesUploadHandler c10Env c10Headers).2 =
      UploadResponse.created 3 none none ∧
    (bytesUploadHandler c1Env c1Headers).2 =
      UploadResponse.created 7 none (some 9) := by
  have h1 := upload_response_reference c10Env c10Headers 0 rfl rfl rfl 3 rfl
  have h2 := upload_response_reference c1Env c1Headers 0 rfl rfl rfl 3 rfl
  exact ⟨by simpa using h1.1 rfl rfl, by simpa using h2.2 7 9 rfl rfl rfl⟩

/-! ## C2: cleanup on errors after storage -/

/-- C2 counterexample: an upload whose pipeline succeeded (units stored,
root reference 3) and whose access-control step then fails surfaces the
error (404 write) without ever invoking Cleanup. -/
theorem cleanup_claim_false :
    c3Env.pipeline = Except.ok 3 ∧
    (bytesUploadHandler c3Env c3Headers).1 =
      [Event.pipelineRun, Event.actOp, Event.writeStatus 404] ∧
    (bytesUploadHandler c3Env c3Headers).2 =
      UploadResponse.actNotFoundResp ∧
    Event.cleanup ∉ (bytesUploadHandler c3Env c3Headers).1 := by
  refine ⟨rfl, by decide, by decide, by decide⟩

/-- C2 (amended): Cleanup is invoked, immediately before the error
status is written, whenever the pipeline stage or the final Done step
fails; access-control stage errors are surfaced without invoking
Cleanup. -/
theorem cleanup_before_error_surfaced (env : UploadEnv) (h : UploadHeaders) :
    ((bytesUploadHandler env h).2 = UploadResponse.bucketFullResp →
      ∃ pre, (bytesUploadHandler env h).1 =
        pre ++ [Event.cleanup, Event.writeStatus 402]) ∧
    ((bytesUploadHandler env h).2 = UploadResponse.splitFailed →
      ∃ pre, (bytesUploadHandler env h).1 =
        pre ++ [Event.cleanup, Event.writeStatus 500]) ∧
    ((bytesUploadHandler env h).2 = UploadResponse.doneFailed →
      ∃ pre, (bytesUploadHandler env h).1 =
        pre ++ [Event.cleanup, Event.writeStatus 500]) ∧
    (∀ e, (bytesUploadHandler env h).2 = actErrResponse e →
      Event.cleanup ∉ (bytesUploadHandler env h).1) := by
  have hcl := cleanup_not_in_tagStep env h
  rcases hts : tagStepOf env h with ⟨ev, tagr⟩
  rw [hts] at hcl
  by_cases hv : h.valid = false
  · simp [bytesUploadHandler, hv, actErrResponse_ne_created]
  · rw [Bool.not_eq_false] at hv
    have hclev : Event.cleanup ∉ ev := by simpa using hcl
    cases tagr with
    | error se =>
        simp [bytesUploadHandler, hv, hts, hclev]
    | ok tag =>
        cases hput : env.newPutter with
        | error pe =>
            simp [bytesUploadHandler, hv, hts, hput,
              putterErrResponse_ne_bucketFull, putterErrResponse_ne_splitFailed,
              putterErrResponse_ne_doneFailed]
            intro e he
            exact absurd he (putterErrResponse_ne_actErrResponse pe e)
        | ok u =>
            cases hp : env.pipeline with
            | error pe =>
                cases pe with
                | bucketFull =>
                    simp [bytesUploadHandler, hv, hts, hput, hp, cleanupWrite]
                    refine ⟨⟨ev ++ [Event.pipelineRun], by simp⟩, ?_⟩
                    intro e he
                    exact absurd he.symm (actErrResponse_ne_bucketFull e)
                | other =>
                    simp [bytesUploadHandler, hv, hts, hput, hp, cleanupWrite]
                    refine ⟨⟨ev ++ [Event.pipelineRun], by simp⟩, ?_⟩
                    intro e he
                    exact absurd he.symm (actErrResponse_ne_splitFailed e)
            | ok reference =>
                by_cases hact : h.act = true
                · cases ha : env.actHandler reference h.historyAddress with
                  | error ae =>
                      simp [bytesUploadHandler, hv, hts, hput, hp, hact, ha,
                        actErrResponse_ne_bucketFull, actErrResponse_ne_splitFailed,
                        actErrResponse_ne_doneFailed]
                      intro e he
                      simp [hcl]
                  | ok p =>
                      rcases p with ⟨er, hr⟩
                      cases hdone : env.done reference with
                      | error de =>
                          simp [bytesUploadHandler, hv, hts, hput, hp, hact, ha,
                            hdone, cleanupWrite]
                          refine ⟨⟨ev ++ [Event.pipelineRun, Event.actOp,
                            Event.doneOp reference], by simp⟩, ?_⟩
                          intro e he
                          exact absurd he.symm (actErrResponse_ne_doneFailed e)
                      | ok u2 =>
                          simp [bytesUploadHandler, hv, hts, hput, hp, hact, ha,
                            hdone]
                          intro e he
                          exact absurd he.symm (actErrResponse_ne_created e _ _ _)
                · rw [Bool.not_eq_true] at hact
                  cases hdone : env.done reference with
                  | error de =>
                      simp [bytesUploadHandler, hv, hts, hput, hp, hact, hdone,
                        cleanupWrite]
                      refine ⟨⟨ev ++ [Event.pipelineRun, Event.doneOp reference],
                        by simp⟩, ?_⟩
                      intro e he
                      exact absurd he.symm (actErrResponse_ne_doneFailed e)
                  | ok u2 =>
                      simp [bytesUploadHandler, hv, hts, hput, hp, hact, hdone]
                      intro e he
                      exact absurd he.symm (actErrResponse_ne_created e _ _ _)

/-- Witness for the amended C2: a bucket-full pipeline failure is
preceded by Cleanup; an access-control failure surfaces with no Cleanup
in the trace. -/
theorem cleanup_before_error_surfaced_witness :
    (∃ pre, (bytesUploadHandler c5Env c5Headers).1 =
      pre ++ [Event.cleanup, Event.writeStatus 402]) ∧
    Event.cleanup ∉ (bytesUploadHandler c3Env c3Headers).1 := by
  have h1 := cleanup_before_error_surfaced c5Env c5Headers
  have h2 := cleanup_before_error_surfaced c3Env c3Headers
  exact ⟨h1.1 (by decide), h2.2.2.2 ActErr.notFound (by decide)⟩

/-! ## C4: the length reported by the HEAD handler -/

/-- C4 counterexample: a valid content-addressed chunk whose span bytes
decode to 2^64 - 1 is reported with length -1 (the int64 cast of the
span), not with the uint64 span value. -/
theorem head_span_claim_false :
    cacValid zeroHash c4Chunk = true ∧
    littleEndianUint64 (c4Chunk.data.take SpanSize) = 18446744073709551615 ∧
    (bytesHeadHandler zeroHash c4Contents noFail true 0).contentLength =
      some (-1) ∧
    (-1 : Int) ≠ (18446744073709551615 : Int) := by
  refine ⟨by decide, by decide, by decide, by decide⟩

/-- C4 (amended): for a resolvable root chunk the HEAD handler reports
200; if the chunk is a valid content-addressed unit the reported length
is the span decoded from the first 8 data bytes interpreted as a signed
64-bit integer — equal to the little-endian uint64 span whenever that
value is below 2^63 — and otherwise the reported length is the byte
length of the chunk's data. -/
theorem head_length_rule (hash : List Nat → Nat)
    (contents : Nat → Option Chunk) (tf : Nat → Bool) (addr : Nat)
    (ch : Chunk) (hfound : storeGet contents tf addr = GetResult.found ch) :
    (bytesHeadHandler hash contents tf true addr).status = 200 ∧
    (cacValid hash ch = true →
      (bytesHeadHandler hash contents tf true addr).contentLength =
        some (toInt64 (littleEndianUint64 (ch.data.take SpanSize))) ∧
      (littleEndianUint64 (ch.data.take SpanSize) < 2 ^ 63 →
        (bytesHeadHandler hash contents tf true addr).contentLength =
          some ((littleEndianUint64 (ch.data.take SpanSize) : Nat) : Int))) ∧
    (cacValid hash ch = false →
      (bytesHeadHandler hash contents tf true addr).contentLength =
        some ((ch.data.length : Nat) : Int)) := by
  unfold bytesHeadHandler
  rw [hfound]
  refine ⟨by simp, ?_, ?_⟩
  · intro hvalid
    refine ⟨by simp [hvalid], ?_⟩
    intro hlt
    simp [hvalid, toInt64_of_lt _ hlt]
  · intro hinvalid
    simp [hinvalid]

/-- Witness for the amended C4: a 50-byte raw object reports length 50;
a valid root chunk with span 1048576 reports length 1048576. -/
theorem head_length_rule_witness :
    (bytesHeadHandler oneHash contents50 noFail true 0).contentLength =
      some 50 ∧
    (bytesHeadHandler zeroHash contentsMiB noFail true 0).contentLength =
      some 1048576 := by
  have h1 := head_length_rule oneHash contents50 noFail 0 rawChunk50 rfl
  have h2 := head_length_rule zeroHash contentsMiB noFail 0 chunkMiB rfl
  refine ⟨?_, ?_⟩
  · have := h1.2.2 (by decide)
    simpa using this
  · have := (h2.2.1 (by decide)).2 (by decide)
    simpa using this

/-! ## C7: NotFound on the read path -/

/-- C7 counterexample: an address that is present in the Store but whose
fetch suffers a transport failure is also reported as 404 NotFound, so
NotFound does not only arise from absence. -/
theorem head_notFound_claim_false :
    c7Contents 0 = some c7Chunk ∧
    (bytesHeadHandler zeroHash c7Contents allFail true 0).status = 404 := by
  exact ⟨rfl, rfl⟩

/-- C7 (amended): a length-only query on an absent address fails with
404 NotFound (and the modelled download resolution fails as well), but
NotFound is not reserved for absence: any retrieval failure — including
a transport failure on a present address — is reported as 404, and 404
is reported exactly when no chunk was retrieved. -/
theorem head_notFound_rule (hash : List Nat → Nat)
    (contents : Nat → Option Chunk) (tf : Nat → Bool) (addr : Nat) :
    (contents addr = none →
      (bytesHeadHandler hash contents tf true addr).status = 404 ∧
      (bytesHeadHandler hash contents tf true addr).contentLength = none ∧
      downloadResolve contents tf addr = Except.error ()) ∧
    (tf addr = true →
      (bytesHeadHandler hash contents tf true addr).status = 404) ∧
    ((bytesHeadHandler hash contents tf true addr).status = 404 →
      ∀ ch, storeGet contents tf addr ≠ GetResult.found ch) := by
  unfold bytesHeadHandler downloadResolve storeGet
  by_cases htf : tf addr = true
  · simp [htf]
  · rw [Bool.not_eq_true] at htf
    cases hc : contents addr <;> simp [htf, hc]

/-- Witness for the amended C7: an absent address reports 404, and a
present address with a transport failure also reports 404. -/
theorem head_notFound_rule_witness :
    (bytesHeadHandler zeroHash (fun _ => none) noFail true 5).status = 404 ∧
    (bytesHeadHandler zeroHash c7Contents allFail true 0).status = 404 := by
  have h1 := head_notFound_rule zeroHash (fun _ => none) noFail 5
  have h2 := head_notFound_rule zeroHash c7Contents allFail 0
  exact ⟨(h1.1 rfl).1, h2.2.1 rfl⟩

end Bee
